import Mathlib

/-!
Shallow embedding of the tabular pipeline in `src/utils.py` (selector,
reshaper, categorizer, aggregator) and proofs of its specified properties.

A pandas DataFrame is modelled as a list of rows, each row an association
list from column name to cell value, in column order.  Floating-point
results of divisions, means and medians are modelled exactly over `ℚ`.
pandas raises `KeyError` when code accesses a column that is absent from a
frame; where a claim depends on that the embedding either returns `none`
(`make_long`) or the theorem carries explicit column hypotheses.
-/

/-- Cell values: integers (education codes, ages, counts), strings (labels,
targets), rationals (exact stand-in for float results of division, mean and
median), and `vNA` for NaN / missing values. -/
inductive Val where
  | vInt : Int → Val
  | vStr : String → Val
  | vRat : ℚ → Val
  | vNA : Val
deriving DecidableEq, Repr

/-- A DataFrame row: association list from column name to value. -/
abbrev Row := List (String × Val)

/-- A DataFrame: a list of rows. -/
abbrev Frame := List Row

/-- Embedding of `utils.filter_by_parent_edu`: keep the rows whose
`Mother_edu_code` equals `mother_code` and whose `Father_edu_code` equals
`father_code`; a `father_code` of `none` models the Python default
`father_code=None`, which the body replaces by `mother_code`. -/
def filter_by_parent_edu (df : Frame) (mother_code : Int)
    (father_code : Option Int := none) : Frame :=
  let fc := father_code.getD mother_code
  df.filter (fun r =>
    decide (r.lookup ("Mother_edu_code") = some (Val.vInt mother_code)) &&
    decide (r.lookup ("Father_edu_code") = some (Val.vInt fc)))

/-- Embedding of `utils.filter_one_parent`: keep the rows whose column
`parent` equals `parent_code`. -/
def filter_one_parent (df : Frame) (parent : String) (parent_code : Int) : Frame :=
  df.filter (fun r => decide (r.lookup parent = some (Val.vInt parent_code)))

/-- Mother-side record built by `utils.make_long`: the Python code selects
`df[[value_col, parent_col]]`, renames the parent column to `Edu_code` and
assigns `Parent`, so the record carries exactly those three columns. -/
def longRecord (value_col parent_col : String) (tag : String) (r : Row) : Row :=
  [(value_col, ((r.lookup value_col).getD Val.vNA)),
   ("Edu_code", ((r.lookup parent_col).getD Val.vNA)),
   ("Parent", Val.vStr tag)]

/-- Embedding of `utils.make_long`: concatenate the Mother-side block (each
row renamed and tagged) with the Father-side block.  Python's
`parent_cols=["Mother_edu_code", "Father_edu_code"]` default list is passed
as the two column names.  Selecting a missing column raises `KeyError` in
pandas; the embedding returns `none` in that case. -/
def make_long (df : Frame) (value_col : String)
    (mother_col : String := "Mother_edu_code")
    (father_col : String := "Father_edu_code") : Option Frame :=
  if (∀ r ∈ df, (r.lookup value_col).isSome ∧ (r.lookup mother_col).isSome ∧
      (r.lookup father_col).isSome) then
    some ((df.map (longRecord value_col mother_col ("Mother"))) ++
          (df.map (longRecord value_col father_col ("Father"))))
  else none

/-- Categorical column object, as built by
`pd.Categorical(values, categories=order, ordered=True)`: pandas coerces any
value not among the declared categories (including labels that the label map
produced but that are missing from `order`, and NaN itself) to NaN. -/
structure CatColumn where
  values : List Val
  categories : List String
  ordered : Bool
deriving DecidableEq, Repr

/-- Build the categorical column from raw values and the declared order. -/
def mkCategorical (vals : List Val) (order : List String) : CatColumn :=
  { values := vals.map (fun v => match v with
      | Val.vStr s => if s ∈ order then Val.vStr s else Val.vNA
      | _ => Val.vNA),
    categories := order,
    ordered := true }

/-- Column produced by `df[edu_col].map(labels)`: dictionary lookup, NaN for
codes missing from the dictionary (pandas raises no error for them).  A
missing `edu_col` would be a `KeyError` in pandas; the embedding yields NaN
and theorems that need the column state its presence. -/
def mapLabels (df : Frame) (edu_col : String) (labels : List (Int × String)) :
    List Val :=
  df.map (fun r => match r.lookup edu_col with
    | some (Val.vInt c) =>
      match labels.lookup c with
      | some s => Val.vStr s
      | none => Val.vNA
    | _ => Val.vNA)

/-- Assignment `df[c] = v` on a single row: replace the column in place when
present, else append it as the last column (pandas column-assignment
semantics). -/
def setField (r : Row) (c : String) (v : Val) : Row :=
  if (r.lookup c).isSome then
    r.map (fun p => if p.1 = c then (c, v) else p)
  else r ++ [(c, v)]

/-- Columnwise assignment `df[c] = vals`, aligning by position. -/
def setColumn : Frame → String → List Val → Frame
  | [], _, _ => []
  | _ :: _, _, [] => []
  | r :: rs, c, v :: vs => setField r c v :: setColumn rs c vs

/-- Embedding of `utils.map_and_order_edu`: add `label_col` as the mapped,
ordered categorical column.  The Python function mutates `df` by column
assignment and returns it; the embedding returns the updated frame together
with the categorical (dtype) object stored in the new column. -/
def map_and_order_edu (df : Frame) (edu_col : String := "Edu_code")
    (label_col : String := "Education Level")
    (labels : List (Int × String) := []) (order : List String := []) :
    Frame × CatColumn :=
  let cat := mkCategorical (mapLabels df edu_col labels) order
  (setColumn df label_col cat.values, cat)

/-- Grouping key cell: pandas `groupby` (default `dropna=True`) drops rows
whose key value is NaN. -/
def keyCell (r : Row) (c : String) : Option Val :=
  match r.lookup c with
  | some Val.vNA => none
  | some v => some v
  | none => none

/-- Key of `groupby(["Parent", "Education Level"])`: `none` when the row is
dropped from every group. -/
def key2 (r : Row) : Option (Val × Val) :=
  match keyCell r ("Parent"), keyCell r ("Education Level") with
  | some p, some e => some (p, e)
  | _, _ => none

/-- Key of `groupby(["Parent", "Education Level", tc])`. -/
def key3 (tc : String) (r : Row) : Option (Val × Val × Val) :=
  match keyCell r ("Parent"), keyCell r ("Education Level"), keyCell r tc with
  | some p, some e, some t => some (p, e, t)
  | _, _, _ => none

/-- The (Parent, Education Level) part of a row's three-column key. -/
def pe3 (tc : String) (r : Row) : Option (Val × Val) :=
  (key3 tc r).map (fun k => (k.1, k.2.1))

/-- Distinct observed three-column group keys.  pandas emits groups sorted
by key; every property proved below is invariant under permuting the output
rows, so the embedding fixes the `dedup` order instead of modelling the
categorical-aware sort. -/
def groupKeys3 (tc : String) (df : Frame) : List (Val × Val × Val) :=
  (df.filterMap (key3 tc)).dedup

/-- Result of `df.groupby(["Parent", "Education Level", tc], observed=True)
.size()`: one entry per observed key with the number of rows in its group. -/
def groupCounts (tc : String) (df : Frame) : List ((Val × Val × Val) × Nat) :=
  (groupKeys3 tc df).map (fun k =>
    (k, df.countP (fun r => decide (key3 tc r = some k))))

/-- Denominator `counts.groupby(["Parent", "Education Level"],
observed=True)["Count"].transform("sum")` for the count row of key `k`: the
sum of the counts over the count rows sharing `k`'s first two components. -/
def percentTot (counts : List ((Val × Val × Val) × Nat))
    (k : Val × Val × Val) : Nat :=
  ((counts.filter (fun kc2 => decide (kc2.1.1 = k.1 ∧ kc2.1.2.1 = k.2.1))).map
    (fun kc2 => kc2.2)).sum

/-- One output row of `utils.compute_percent`: `reset_index(name="Count")`
lays out the three keys then `Count`, and the `Percent` column is appended
by the subsequent assignment. -/
def percentRow (tc : String) (counts : List ((Val × Val × Val) × Nat))
    (kc : (Val × Val × Val) × Nat) : Row :=
  [("Parent", kc.1.1), ("Education Level", kc.1.2.1), (tc, kc.1.2.2),
   ("Count", Val.vInt kc.2),
   ("Percent", Val.vRat ((kc.2 : ℚ) / (percentTot counts kc.1 : ℚ) * 100))]

/-- Embedding of `utils.compute_percent`. -/
def compute_percent (df : Frame) (tc : String := "Target") : Frame :=
  (groupCounts tc df).map (percentRow tc (groupCounts tc df))

/-- Numeric content of a cell, as pandas arithmetic sees it (NaN and
non-numeric cells carry no number). -/
def getNum (r : Row) (c : String) : Option ℚ :=
  match r.lookup c with
  | some (Val.vInt n) => some (n : ℚ)
  | some (Val.vRat q) => some q
  | _ => none

/-- Integer content of a cell (the `Count` column is integer-valued). -/
def getInt (r : Row) (c : String) : Option Int :=
  match r.lookup c with
  | some (Val.vInt n) => some n
  | _ => none

/-- Insertion into an ascending sorted list. -/
def insertQ (x : ℚ) : List ℚ → List ℚ
  | [] => [x]
  | y :: ys => if x ≤ y then x :: y :: ys else y :: insertQ x ys

/-- Ascending sort, as performed by pandas' median. -/
def sortQ (l : List ℚ) : List ℚ := l.foldr insertQ []

/-- pandas mean: sum over length, skipping NaN entries (already removed from
`l`); NaN on an empty list. -/
def meanV (l : List ℚ) : Val :=
  if l.length = 0 then Val.vNA else Val.vRat (l.sum / (l.length : ℚ))

/-- pandas median: middle element of the sorted values for odd length, the
average of the two middle values for even length; NaN on an empty list. -/
def medianV (l : List ℚ) : Val :=
  if (sortQ l).length = 0 then Val.vNA
  else if (sortQ l).length % 2 = 1 then
    Val.vRat ((sortQ l).getD ((sortQ l).length / 2) 0)
  else
    Val.vRat (((sortQ l).getD ((sortQ l).length / 2 - 1) 0 +
               (sortQ l).getD ((sortQ l).length / 2) 0) / 2)

/-- Numeric values of `vc` over the rows of the group keyed `k` (pandas mean
and median skip NaN entries). -/
def groupVals (df : Frame) (vc : String) (k : Val × Val) : List ℚ :=
  (df.filter (fun r => decide (key2 r = some k))).filterMap
    (fun r => getNum r vc)

/-- Distinct observed (Parent, Education Level) group keys. -/
def groupKeys2 (df : Frame) : List (Val × Val) := (df.filterMap key2).dedup

/-- One melted output row of `utils.compute_summary_stats`: the two group
keys, the `Statistic` tag, and the single shared value column. -/
def statRow (vc stat : String) (k : Val × Val) (v : Val) : Row :=
  [("Parent", k.1), ("Education Level", k.2),
   ("Statistic", Val.vStr stat), (vc, v)]

/-- Aggregate of `df.groupby(["Parent", "Education Level"], observed=True)
.agg(Mean_Age=(value_col, "mean"), Median_Age=(value_col, "median"))`: one
entry per observed key with the group's mean and median of `value_col`. -/
def summaryAgg (df : Frame) (vc : String) : List ((Val × Val) × Val × Val) :=
  (groupKeys2 df).map (fun k =>
    (k, meanV (groupVals df vc k), medianV (groupVals df vc k)))

/-- Embedding of `utils.compute_summary_stats`: aggregate mean and median
per observed (Parent, Education Level) group, then melt the two statistics
into rows tagged Mean / Median sharing the single value column (melt emits
all rows of the first value variable, then all of the second). -/
def compute_summary_stats (df : Frame) (value_col : String) : Frame :=
  (summaryAgg df value_col).map (fun a => statRow value_col ("Mean") a.1 a.2.1) ++
  (summaryAgg df value_col).map (fun a => statRow value_col ("Median") a.1 a.2.2)

/-- State-passing embedding of a call `compute_percent(df, tc)`: the pair is
the value of the caller's frame after the call together with the returned
frame.  The Python body binds the fresh frame `counts` (built by `groupby
... .size().reset_index()`), assigns only to that fresh frame, and never
assigns into `df`, so the caller's frame is returned unchanged. -/
def compute_percent_state (df : Frame) (tc : String) : Frame × Frame :=
  (df, compute_percent df tc)

/-- State-passing embedding of a call `compute_summary_stats(df, value_col)`:
the body binds the fresh frames `summary_df` and `summary_long` and assigns
only to `summary_long`, never into `df`. -/
def compute_summary_stats_state (df : Frame) (vc : String) : Frame × Frame :=
  (df, compute_summary_stats df vc)

/-- State-passing embedding of a call `map_and_order_edu(...)`: the Python
body assigns `df[label_col] = ...`, so the caller's frame is the mutated
frame, which is also the returned value. -/
def map_and_order_edu_state (df : Frame) (edu_col label_col : String)
    (labels : List (Int × String)) (order : List String) :
    Frame × (Frame × CatColumn) :=
  ((map_and_order_edu df edu_col label_col labels order).1,
   map_and_order_edu df edu_col label_col labels order)

/-- Re-aggregation described by the spec: group a PercentRow table by its
own (Parent, Education Level, target) keys with `Count` as the value and sum
it, i.e. `tbl.groupby(["Parent", "Education Level", tc], observed=True)
["Count"].sum().reset_index()`. -/
def regroup_counts (tbl : Frame) (tc : String) : Frame :=
  ((tbl.filterMap (key3 tc)).dedup).map (fun k =>
    [("Parent", k.1), ("Education Level", k.2.1), (tc, k.2.2),
     ("Count", Val.vInt
       (((tbl.filter (fun r => decide (key3 tc r = some k))).filterMap
         (fun r => getInt r ("Count"))).sum))])

/-- Rows of `tbl` belonging to the (Parent, Education Level) group `(p, e)`. -/
def rowsOfGroup (tbl : Frame) (p e : Val) : Frame :=
  tbl.filter (fun ρ =>
    decide (ρ.lookup ("Parent") = some p) &&
    decide (ρ.lookup ("Education Level") = some e))

/-- Sum of the `Percent` column over the rows of group `(p, e)`. -/
def percentSum (tbl : Frame) (p e : Val) : ℚ :=
  ((rowsOfGroup tbl p e).filterMap (fun ρ => getNum ρ ("Percent"))).sum

/-- Sum of the `Count` column over the rows of group `(p, e)`. -/
def countSum (tbl : Frame) (p e : Val) : ℚ :=
  ((rowsOfGroup tbl p e).filterMap (fun ρ => getNum ρ ("Count"))).sum

/-- Wide fixture of `src/tools/tests/test_utils.py`. -/
def dummy_df : Frame :=
  [[("Mother_edu_code", Val.vInt 2), ("Father_edu_code", Val.vInt 2),
    ("Target", Val.vStr ("Graduate")), ("Age", Val.vInt 20)],
   [("Mother_edu_code", Val.vInt 3), ("Father_edu_code", Val.vInt 3),
    ("Target", Val.vStr ("Dropout")), ("Age", Val.vInt 21)],
   [("Mother_edu_code", Val.vInt 2), ("Father_edu_code", Val.vInt 5),
    ("Target", Val.vStr ("Graduate")), ("Age", Val.vInt 22)],
   [("Mother_edu_code", Val.vInt 5), ("Father_edu_code", Val.vInt 5),
    ("Target", Val.vStr ("Dropout")), ("Age", Val.vInt 23)]]

/-- Categorized long fixture of `test_compute_percent_sums_to_100`. -/
def percent_fixture : Frame :=
  [[("Parent", Val.vStr ("Mother")), ("Age", Val.vInt 20),
    ("Edu_code", Val.vInt 2), ("Education Level", Val.vStr ("Test Level")),
    ("Target", Val.vStr ("A"))],
   [("Parent", Val.vStr ("Mother")), ("Age", Val.vInt 21),
    ("Edu_code", Val.vInt 3), ("Education Level", Val.vStr ("Test Level")),
    ("Target", Val.vStr ("B"))],
   [("Parent", Val.vStr ("Father")), ("Age", Val.vInt 22),
    ("Edu_code", Val.vInt 5), ("Education Level", Val.vStr ("Test Level")),
    ("Target", Val.vStr ("A"))],
   [("Parent", Val.vStr ("Father")), ("Age", Val.vInt 23),
    ("Edu_code", Val.vInt 5), ("Education Level", Val.vStr ("Test Level")),
    ("Target", Val.vStr ("B"))]]

lemma lookup_cons_ne (c a : String) (v : Val) (t : Row) (h : c ≠ a) :
    List.lookup c ((a, v) :: t) = List.lookup c t := by
  have hb : (c == a) = false := beq_eq_false_iff_ne.mpr h
  simp [List.lookup, hb]

lemma lookup_cons_self (c : String) (v : Val) (t : Row) :
    List.lookup c ((c, v) :: t) = some v := by
  simp [List.lookup]

lemma nodup_filter_eq_single {α : Type} [DecidableEq α] (l : List α) (a : α)
    (h : l.Nodup) (ha : a ∈ l) : l.filter (fun x => decide (x = a)) = [a] := by
  induction l with
  | nil => cases ha
  | cons b t ih =>
    rcases List.mem_cons.mp ha with hba | hat
    · subst hba
      have hnd := List.nodup_cons.mp h
      have hnil : List.filter (fun x => decide (x = a)) t = [] := by
        apply List.filter_eq_nil_iff.mpr
        intro x hx
        simp only [decide_eq_true_eq]
        intro hxa
        exact hnd.1 (hxa ▸ hx)
      simp [List.filter_cons, hnil]
    · have hb : ¬ (b = a) := by
        intro hba
        exact (List.nodup_cons.mp h).1 (hba ▸ hat)
      have := ih (List.nodup_cons.mp h).2 hat
      simp [List.filter_cons, this, hb]

lemma nodup_all_eq_single {α : Type} (l : List α) (a : α)
    (h : l.Nodup) (hall : ∀ x ∈ l, x = a) (ha : a ∈ l) : l = [a] := by
  induction l with
  | nil => cases ha
  | cons b t ih =>
    have hba : b = a := hall b (List.mem_cons_self b t)
    have ht : t = [] := by
      cases t with
      | nil => rfl
      | cons c s =>
        exfalso
        have hca : c = a := hall c (List.mem_cons_of_mem b (List.mem_cons_self c s))
        apply (List.nodup_cons.mp h).1
        have hbc : b = c := by rw [hba, hca]
        rw [hbc]
        exact List.mem_cons_self c s
    rw [hba, ht]

lemma sum_map_addf {α : Type} (K : List α) (f g : α → Nat) :
    (K.map (fun k => f k + g k)).sum = (K.map f).sum + (K.map g).sum := by
  induction K with
  | nil => rfl
  | cons x xs ih => simp [ih]; ring

lemma sum_indicator_mem {α : Type} [DecidableEq α] (K : List α) (a : α)
    (hnd : K.Nodup) (ha : a ∈ K) :
    (K.map (fun k => if a = k then 1 else 0)).sum = 1 := by
  induction K with
  | nil => cases ha
  | cons b t ih =>
    rcases List.mem_cons.mp ha with hab | hat
    · subst hab
      have hnotmem := (List.nodup_cons.mp hnd).1
      have hz : (t.map (fun k => if a = k then 1 else 0)).sum = 0 := by
        apply List.sum_eq_zero
        intro x hx
        rcases List.mem_map.mp hx with ⟨k, hk, hval⟩
        have : ¬ (a = k) := fun hak => hnotmem (hak ▸ hk)
        simp [this] at hval
        exact hval.symm
      simp [hz]
    · have hab : ¬ (a = b) := by
        intro h
        exact (List.nodup_cons.mp hnd).1 (h ▸ hat)
      simp [hab, ih (List.nodup_cons.mp hnd).2 hat]

lemma sum_indicator_not_mem {α : Type} [DecidableEq α] (K : List α) (a : α)
    (ha : a ∉ K) :
    (K.map (fun k => if a = k then 1 else 0)).sum = 0 := by
  apply List.sum_eq_zero
  intro x hx
  rcases List.mem_map.mp hx with ⟨k, hk, hval⟩
  have : ¬ (a = k) := fun hak => ha (hak ▸ hk)
  simp [this] at hval
  exact hval.symm

lemma filter_of_map {α β : Type} (l : List α) (f : α → β) (q : β → Bool) :
    (l.map f).filter q = (l.filter (fun a => q (f a))).map f := by
  induction l with
  | nil => rfl
  | cons x xs ih =>
    by_cases h : q (f x) = true
    · simp [List.filter_cons, h, ih]
    · simp only [Bool.not_eq_true] at h
      simp [List.filter_cons, h, ih]

lemma filterMap_map_of_some {α β γ : Type} (l : List α) (g : α → β)
    (f : β → Option γ) (hfun : β → γ) (h : ∀ a ∈ l, f (g a) = some (hfun (g a))) :
    (l.map g).filterMap f = l.map (fun a => hfun (g a)) := by
  induction l with
  | nil => rfl
  | cons x xs ih =>
    simp [List.filterMap_cons, h x (List.mem_cons_self x xs),
      ih (fun a ha => h a (List.mem_cons_of_mem x ha))]

lemma filterMap_eq_of_drop {α β : Type} (l : List α) (q : α → Bool)
    (f : α → Option β) (h : ∀ a, q a = false → f a = none) :
    l.filterMap f = (l.filter q).filterMap f := by
  induction l with
  | nil => rfl
  | cons x xs ih =>
    by_cases hq : q x = true
    · simp [List.filter_cons, hq, List.filterMap_cons, ih]
    · simp only [Bool.not_eq_true] at hq
      simp [List.filter_cons, hq, List.filterMap_cons, h x hq, ih]

lemma countP_eq_of_drop {α : Type} (l : List α) (q : α → Bool)
    (p : α → Bool) (h : ∀ a, q a = false → p a = false) :
    l.countP p = (l.filter q).countP p := by
  induction l with
  | nil => rfl
  | cons x xs ih =>
    by_cases hq : q x = true
    · simp [List.filter_cons, hq, List.countP_cons, ih]
    · simp only [Bool.not_eq_true] at hq
      simp [List.filter_cons, hq, List.countP_cons, h x hq, ih]

lemma filter_eq_of_drop {α : Type} (l : List α) (q : α → Bool)
    (p : α → Bool) (h : ∀ a, q a = false → p a = false) :
    l.filter p = (l.filter q).filter p := by
  induction l with
  | nil => rfl
  | cons x xs ih =>
    by_cases hq : q x = true
    · simp [List.filter_cons, hq, ih]
    · simp only [Bool.not_eq_true] at hq
      simp [List.filter_cons, hq, h x hq, ih]

lemma sum_div_mul (l : List ℚ) (T c : ℚ) :
    (l.map (fun x => x / T * c)).sum = l.sum / T * c := by
  induction l with
  | nil => simp
  | cons x xs ih => simp [ih]; ring

lemma keyCell_ne_na (r : Row) (c : String) (v : Val)
    (h : keyCell r c = some v) : v ≠ Val.vNA := by
  unfold keyCell at h
  cases hl : r.lookup c with
  | none => rw [hl] at h; cases h
  | some w =>
    rw [hl] at h
    cases w with
    | vNA => cases h
    | vInt n => intro hna; rw [← Option.some_inj.mp h] at hna; cases hna
    | vStr s => intro hna; rw [← Option.some_inj.mp h] at hna; cases hna
    | vRat q => intro hna; rw [← Option.some_inj.mp h] at hna; cases hna

lemma keyCell_of_lookup (r : Row) (c : String) (v : Val)
    (hl : r.lookup c = some v) (hv : v ≠ Val.vNA) : keyCell r c = some v := by
  unfold keyCell
  rw [hl]
  cases v with
  | vNA => exact absurd rfl hv
  | vInt n => rfl
  | vStr s => rfl
  | vRat q => rfl

lemma key3_ne_na (tc : String) (r : Row) (k : Val × Val × Val)
    (h : key3 tc r = some k) :
    k.1 ≠ Val.vNA ∧ k.2.1 ≠ Val.vNA ∧ k.2.2 ≠ Val.vNA := by
  unfold key3 at h
  split at h
  · rename_i p e t hp he ht
    have hk := Option.some_inj.mp h
    refine ⟨?_, ?_, ?_⟩
    · rw [← hk]
      exact keyCell_ne_na r _ p hp
    · rw [← hk]
      exact keyCell_ne_na r _ e he
    · rw [← hk]
      exact keyCell_ne_na r _ t ht
  · cases h

lemma key2_ne_na (r : Row) (k : Val × Val) (h : key2 r = some k) :
    k.1 ≠ Val.vNA ∧ k.2 ≠ Val.vNA := by
  unfold key2 at h
  split at h
  · rename_i p e hp he
    have hk := Option.some_inj.mp h
    refine ⟨?_, ?_⟩
    · rw [← hk]
      exact keyCell_ne_na r _ p hp
    · rw [← hk]
      exact keyCell_ne_na r _ e he
  · cases h

lemma mem_groupKeys3 (tc : String) (df : Frame) (k : Val × Val × Val) :
    k ∈ groupKeys3 tc df ↔ ∃ r ∈ df, key3 tc r = some k := by
  unfold groupKeys3
  rw [List.mem_dedup]
  exact List.mem_filterMap

lemma groupKeys3_nodup (tc : String) (df : Frame) : (groupKeys3 tc df).Nodup :=
  List.nodup_dedup _

lemma mem_groupKeys2 (df : Frame) (k : Val × Val) :
    k ∈ groupKeys2 df ↔ ∃ r ∈ df, key2 r = some k := by
  unfold groupKeys2
  rw [List.mem_dedup]
  exact List.mem_filterMap

lemma groupKeys2_nodup (df : Frame) : (groupKeys2 df).Nodup :=
  List.nodup_dedup _

lemma percentRow_lookup_parent (tc : String)
    (counts : List ((Val × Val × Val) × Nat)) (kc : (Val × Val × Val) × Nat) :
    (percentRow tc counts kc).lookup ("Parent") = some kc.1.1 := by
  simp [percentRow, List.lookup]

lemma percentRow_lookup_level (tc : String)
    (counts : List ((Val × Val × Val) × Nat)) (kc : (Val × Val × Val) × Nat) :
    (percentRow tc counts kc).lookup ("Education Level") = some kc.1.2.1 := by
  simp [percentRow, List.lookup]

lemma percentRow_lookup_target (tc : String)
    (counts : List ((Val × Val × Val) × Nat)) (kc : (Val × Val × Val) × Nat)
    (h1 : tc ≠ "Parent") (h2 : tc ≠ "Education Level") :
    (percentRow tc counts kc).lookup tc = some kc.1.2.2 := by
  unfold percentRow
  rw [lookup_cons_ne _ _ _ _ h1, lookup_cons_ne _ _ _ _ h2, lookup_cons_self]

lemma percentRow_lookup_count (tc : String)
    (counts : List ((Val × Val × Val) × Nat)) (kc : (Val × Val × Val) × Nat)
    (h3 : tc ≠ "Count") :
    (percentRow tc counts kc).lookup ("Count") = some (Val.vInt kc.2) := by
  unfold percentRow
  rw [lookup_cons_ne _ _ _ _ (by decide), lookup_cons_ne _ _ _ _ (by decide),
    lookup_cons_ne _ _ _ _ (Ne.symm h3), lookup_cons_self]

lemma percentRow_lookup_percent (tc : String)
    (counts : List ((Val × Val × Val) × Nat)) (kc : (Val × Val × Val) × Nat)
    (h4 : tc ≠ "Percent") :
    (percentRow tc counts kc).lookup ("Percent") =
      some (Val.vRat ((kc.2 : ℚ) / (percentTot counts kc.1 : ℚ) * 100)) := by
  unfold percentRow
  rw [lookup_cons_ne _ _ _ _ (by decide), lookup_cons_ne _ _ _ _ (by decide),
    lookup_cons_ne _ _ _ _ (Ne.symm h4), lookup_cons_ne _ _ _ _ (by decide),
    lookup_cons_self]

lemma key3_percentRow (tc : String)
    (counts : List ((Val × Val × Val) × Nat)) (kc : (Val × Val × Val) × Nat)
    (h1 : tc ≠ "Parent") (h2 : tc ≠ "Education Level")
    (hna : kc.1.1 ≠ Val.vNA ∧ kc.1.2.1 ≠ Val.vNA ∧ kc.1.2.2 ≠ Val.vNA) :
    key3 tc (percentRow tc counts kc) = some kc.1 := by
  unfold key3
  rw [keyCell_of_lookup _ _ _ (percentRow_lookup_parent tc counts kc) hna.1,
    keyCell_of_lookup _ _ _ (percentRow_lookup_level tc counts kc) hna.2.1,
    keyCell_of_lookup _ _ _ (percentRow_lookup_target tc counts kc h1 h2) hna.2.2]

lemma statRow_lookup_parent (vc stat : String) (k : Val × Val) (v : Val) :
    (statRow vc stat k v).lookup ("Parent") = some k.1 := by
  simp [statRow, List.lookup]

lemma statRow_lookup_level (vc stat : String) (k : Val × Val) (v : Val) :
    (statRow vc stat k v).lookup ("Education Level") = some k.2 := by
  simp [statRow, List.lookup]

lemma statRow_lookup_statistic (vc stat : String) (k : Val × Val) (v : Val) :
    (statRow vc stat k v).lookup ("Statistic") = some (Val.vStr stat) := by
  simp [statRow, List.lookup]

lemma statRow_lookup_value (vc stat : String) (k : Val × Val) (v : Val)
    (h1 : vc ≠ "Parent") (h2 : vc ≠ "Education Level") (h3 : vc ≠ "Statistic") :
    (statRow vc stat k v).lookup vc = some v := by
  unfold statRow
  rw [lookup_cons_ne _ _ _ _ h1, lookup_cons_ne _ _ _ _ h2,
    lookup_cons_ne _ _ _ _ h3, lookup_cons_self]

lemma pe3_of_key3 (tc : String) (r : Row) (k : Val × Val × Val)
    (h : key3 tc r = some k) : pe3 tc r = some (k.1, k.2.1) := by
  unfold pe3
  rw [h]
  rfl

lemma pe3_none (tc : String) (r : Row) (h : key3 tc r = none) :
    pe3 tc r = none := by
  unfold pe3
  rw [h]
  rfl

lemma sum_counts_partition (tc : String) (p e : Val) (df : Frame)
    (K : List (Val × Val × Val)) (hnd : K.Nodup)
    (hall : ∀ k ∈ K, k.1 = p ∧ k.2.1 = e)
    (hcover : ∀ r ∈ df, ∀ k, key3 tc r = some k → k.1 = p → k.2.1 = e → k ∈ K) :
    (K.map (fun k => df.countP (fun r => decide (key3 tc r = some k)))).sum
      = df.countP (fun r => decide (pe3 tc r = some (p, e))) := by
  induction df with
  | nil => simp
  | cons r rs ih =>
    have hcov2 : ∀ r0 ∈ rs, ∀ k, key3 tc r0 = some k → k.1 = p → k.2.1 = e → k ∈ K :=
      fun r0 hr0 => hcover r0 (List.mem_cons_of_mem r hr0)
    have hmap : K.map (fun k => (r :: rs).countP (fun r0 => decide (key3 tc r0 = some k)))
        = K.map (fun k => rs.countP (fun r0 => decide (key3 tc r0 = some k)) +
            (if key3 tc r = some k then 1 else 0)) := by
      apply List.map_congr_left
      intro k _
      rw [List.countP_cons]
      simp
    rw [hmap, sum_map_addf, List.countP_cons, ih hcov2]
    have hind : (K.map (fun k => if key3 tc r = some k then 1 else 0)).sum
        = if decide (pe3 tc r = some (p, e)) = true then 1 else 0 := by
      cases hk3 : key3 tc r with
      | none =>
        rw [pe3_none tc r hk3]
        simp
      | some k0 =>
        rw [pe3_of_key3 tc r k0 hk3]
        have hconv : K.map (fun k => if some k0 = some k then 1 else 0)
            = K.map (fun k => if k0 = k then 1 else 0) := by
          apply List.map_congr_left
          intro k _
          simp
        rw [hconv]
        by_cases hc : k0.1 = p ∧ k0.2.1 = e
        · have hk0K : k0 ∈ K := hcover r (List.mem_cons_self r rs) k0 hk3 hc.1 hc.2
          rw [sum_indicator_mem K k0 hnd hk0K]
          simp [hc.1, hc.2]
        · have hk0K : k0 ∉ K := by
            intro hmem
            exact hc ⟨(hall k0 hmem).1, (hall k0 hmem).2⟩
          rw [sum_indicator_not_mem K k0 hk0K]
          have hne : ¬ ((k0.1, k0.2.1) = (p, e)) := by
            intro hcc
            exact hc ⟨congrArg Prod.fst hcc, congrArg Prod.snd hcc⟩
          simp [hne]
    rw [hind]

lemma getNum_percentRow_percent (tc : String)
    (counts : List ((Val × Val × Val) × Nat)) (kc : (Val × Val × Val) × Nat)
    (h4 : tc ≠ "Percent") :
    getNum (percentRow tc counts kc) ("Percent") =
      some ((kc.2 : ℚ) / (percentTot counts kc.1 : ℚ) * 100) := by
  unfold getNum
  rw [percentRow_lookup_percent tc counts kc h4]

lemma getNum_percentRow_count (tc : String)
    (counts : List ((Val × Val × Val) × Nat)) (kc : (Val × Val × Val) × Nat)
    (h3 : tc ≠ "Count") :
    getNum (percentRow tc counts kc) ("Count") = some ((kc.2 : ℚ)) := by
  unfold getNum
  rw [percentRow_lookup_count tc counts kc h3]
  simp

lemma rowsOfGroup_compute_percent (df : Frame) (tc : String) (p e : Val) :
    rowsOfGroup (compute_percent df tc) p e =
      ((groupCounts tc df).filter (fun kc => decide (kc.1.1 = p ∧ kc.1.2.1 = e))).map
        (percentRow tc (groupCounts tc df)) := by
  unfold rowsOfGroup compute_percent
  rw [filter_of_map]
  congr 1
  apply List.filter_congr
  intro kc _
  rw [percentRow_lookup_parent, percentRow_lookup_level]
  simp

lemma counts_filter_pe (df : Frame) (tc : String) (p e : Val) :
    (groupCounts tc df).filter (fun kc => decide (kc.1.1 = p ∧ kc.1.2.1 = e)) =
      ((groupKeys3 tc df).filter (fun k => decide (k.1 = p ∧ k.2.1 = e))).map
        (fun k => (k, df.countP (fun r => decide (key3 tc r = some k)))) := by
  unfold groupCounts
  rw [filter_of_map]

lemma percentTot_eq_groupTotal (df : Frame) (tc : String) (p e : Val)
    (k : Val × Val × Val) (hk1 : k.1 = p) (hk2 : k.2.1 = e) :
    percentTot (groupCounts tc df) k =
      (((groupKeys3 tc df).filter (fun k2 => decide (k2.1 = p ∧ k2.2.1 = e))).map
        (fun k2 => df.countP (fun r => decide (key3 tc r = some k2)))).sum := by
  unfold percentTot
  rw [hk1, hk2, counts_filter_pe, List.map_map]
  rfl

lemma groupTotal_eq_countP (df : Frame) (tc : String) (p e : Val) :
    (((groupKeys3 tc df).filter (fun k2 => decide (k2.1 = p ∧ k2.2.1 = e))).map
      (fun k2 => df.countP (fun r => decide (key3 tc r = some k2)))).sum =
      df.countP (fun r => decide (pe3 tc r = some (p, e))) := by
  apply sum_counts_partition
  · exact (groupKeys3_nodup tc df).filter _
  · intro k hk
    have := (List.mem_filter.mp hk).2
    simpa using this
  · intro r hr k hk3 hk1 hk2
    apply List.mem_filter.mpr
    refine ⟨(mem_groupKeys3 tc df k).mpr ⟨r, hr, hk3⟩, ?_⟩
    simp [hk1, hk2]

lemma filterMap_map_some {α β γ : Type} (l : List α) (g : α → β)
    (f : β → Option γ) (h : α → γ) (hh : ∀ a ∈ l, f (g a) = some (h a)) :
    (l.map g).filterMap f = l.map h := by
  induction l with
  | nil => rfl
  | cons x xs ih =>
    simp [List.filterMap_cons, hh x (List.mem_cons_self x xs),
      ih (fun a ha => hh a (List.mem_cons_of_mem x ha))]

lemma sum_map_natCast (l : List Nat) :
    (l.map (fun (n : Nat) => ((n : ℚ)))).sum = ((l.sum : ℚ)) := by
  induction l with
  | nil => simp
  | cons x xs ih =>
    rw [List.map_cons, List.sum_cons, ih, List.sum_cons]
    push_cast
    ring

/-- C1: for every categorized long table and target column (the target column
name distinct from the four fixed output column names, as in any call the
code makes), and for every observed (Parent, EducationLevel) group, the
Percent values that `compute_percent` produces across all target values of
the group sum to exactly 100 (exact over `ℚ`, hence within any
floating-point tolerance), the Count values of the group sum to the group's
total record count, and a group carrying a single distinct target value
yields exactly one row, with that target value and Percent = 100 (no row for
absent values). -/
theorem compute_percent_group_invariants (df : Frame) (tc : String) (p e : Val)
    (h1 : tc ≠ "Parent") (h2 : tc ≠ "Education Level")
    (h3 : tc ≠ "Count") (h4 : tc ≠ "Percent")
    (hobs : 0 < df.countP (fun r => decide (pe3 tc r = some (p, e)))) :
    percentSum (compute_percent df tc) p e = 100 ∧
    countSum (compute_percent df tc) p e =
      ((df.countP (fun r => decide (pe3 tc r = some (p, e))) : ℚ)) ∧
    (∀ t0, (∀ r ∈ df, pe3 tc r = some (p, e) → key3 tc r = some (p, e, t0)) →
      (rowsOfGroup (compute_percent df tc) p e).length = 1 ∧
      ∀ ρ ∈ rowsOfGroup (compute_percent df tc) p e,
        ρ.lookup tc = some t0 ∧ ρ.lookup ("Percent") = some (Val.vRat 100)) := by
  have hne : ((df.countP (fun r => decide (pe3 tc r = some (p, e))) : ℚ)) ≠ 0 := by
    exact_mod_cast Nat.pos_iff_ne_zero.mp hobs
  have hrows : rowsOfGroup (compute_percent df tc) p e
      = ((groupKeys3 tc df).filter (fun k => decide (k.1 = p ∧ k.2.1 = e))).map
          (fun k => percentRow tc (groupCounts tc df)
            (k, df.countP (fun r => decide (key3 tc r = some k)))) := by
    rw [rowsOfGroup_compute_percent, counts_filter_pe, List.map_map]
    rfl
  have hTOT : ∀ k ∈ (groupKeys3 tc df).filter (fun k => decide (k.1 = p ∧ k.2.1 = e)),
      percentTot (groupCounts tc df) k
        = df.countP (fun r => decide (pe3 tc r = some (p, e))) := by
    intro k hk
    have hpe := (List.mem_filter.mp hk).2
    simp only [decide_eq_true_eq] at hpe
    rw [percentTot_eq_groupTotal df tc p e k hpe.1 hpe.2, groupTotal_eq_countP]
  have hsumcnt : (((groupKeys3 tc df).filter (fun k => decide (k.1 = p ∧ k.2.1 = e))).map
      (fun k => ((df.countP (fun r => decide (key3 tc r = some k)) : ℚ)))).sum
        = ((df.countP (fun r => decide (pe3 tc r = some (p, e))) : ℚ)) := by
    have hcomp : ((groupKeys3 tc df).filter (fun k => decide (k.1 = p ∧ k.2.1 = e))).map
        (fun k => ((df.countP (fun r => decide (key3 tc r = some k)) : ℚ)))
        = (((groupKeys3 tc df).filter (fun k => decide (k.1 = p ∧ k.2.1 = e))).map
            (fun k => df.countP (fun r => decide (key3 tc r = some k)))).map
          (fun (n : Nat) => ((n : ℚ))) := by
      rw [List.map_map]
      rfl
    rw [hcomp, sum_map_natCast, groupTotal_eq_countP]
  refine ⟨?_, ?_, ?_⟩
  · unfold percentSum
    rw [hrows]
    rw [filterMap_map_some _ _ _
      (fun k => ((df.countP (fun r => decide (key3 tc r = some k)) : ℚ)) /
        ((df.countP (fun r => decide (pe3 tc r = some (p, e))) : ℚ)) * 100)
      (by
        intro k hk
        rw [getNum_percentRow_percent _ _ _ h4]
        rw [hTOT k hk])]
    have hcomp2 : ((groupKeys3 tc df).filter (fun k => decide (k.1 = p ∧ k.2.1 = e))).map
        (fun k => ((df.countP (fun r => decide (key3 tc r = some k)) : ℚ)) /
          ((df.countP (fun r => decide (pe3 tc r = some (p, e))) : ℚ)) * 100)
        = (((groupKeys3 tc df).filter (fun k => decide (k.1 = p ∧ k.2.1 = e))).map
            (fun k => ((df.countP (fun r => decide (key3 tc r = some k)) : ℚ)))).map
          (fun x => x / ((df.countP (fun r => decide (pe3 tc r = some (p, e))) : ℚ)) * 100) := by
      rw [List.map_map]
      rfl
    rw [hcomp2, sum_div_mul, hsumcnt, div_self hne, one_mul]
  · unfold countSum
    rw [hrows]
    rw [filterMap_map_some _ _ _
      (fun k => ((df.countP (fun r => decide (key3 tc r = some k)) : ℚ)))
      (by
        intro k hk
        rw [getNum_percentRow_count _ _ _ h3])]
    exact hsumcnt
  · intro t0 hsingle
    have hKPE : (groupKeys3 tc df).filter (fun k => decide (k.1 = p ∧ k.2.1 = e))
        = [(p, e, t0)] := by
      apply nodup_all_eq_single
      · exact (groupKeys3_nodup tc df).filter _
      · intro k hk
        have hmem := (List.mem_filter.mp hk).1
        have hpe := (List.mem_filter.mp hk).2
        simp only [decide_eq_true_eq] at hpe
        rcases (mem_groupKeys3 tc df k).mp hmem with ⟨r, hr, hk3⟩
        have hpes : pe3 tc r = some (p, e) := by
          rw [pe3_of_key3 tc r k hk3, hpe.1, hpe.2]
        have hs := hsingle r hr hpes
        rw [hk3] at hs
        exact Option.some_inj.mp hs
      · rcases List.countP_pos_iff.mp hobs with ⟨r, hr, hpr⟩
        have hpe : pe3 tc r = some (p, e) := of_decide_eq_true hpr
        have hk3 := hsingle r hr hpe
        apply List.mem_filter.mpr
        exact ⟨(mem_groupKeys3 tc df _).mpr ⟨r, hr, hk3⟩, by simp⟩
    have hcnt_eq : df.countP (fun r => decide (key3 tc r = some ((p, e, t0))))
        = df.countP (fun r => decide (pe3 tc r = some (p, e))) := by
      apply List.countP_congr
      intro r hr
      constructor
      · intro hp
        apply decide_eq_true
        have := pe3_of_key3 tc r _ (of_decide_eq_true hp)
        exact this
      · intro hq
        exact decide_eq_true (hsingle r hr (of_decide_eq_true hq))
    have htotv : percentTot (groupCounts tc df) ((p, e, t0))
        = df.countP (fun r => decide (pe3 tc r = some (p, e))) := by
      rw [percentTot_eq_groupTotal df tc p e ((p, e, t0)) rfl rfl, groupTotal_eq_countP]
    constructor
    · rw [hrows, hKPE]
      rfl
    · intro ρ hρ
      rw [hrows, hKPE] at hρ
      simp only [List.map_cons, List.map_nil, List.mem_singleton] at hρ
      subst hρ
      constructor
      · rw [percentRow_lookup_target _ _ _ h1 h2]
      · rw [percentRow_lookup_percent _ _ _ h4]
        have hval : ((df.countP (fun r => decide (key3 tc r = some ((p, e, t0)))) : ℚ)) /
            ((percentTot (groupCounts tc df) ((p, e, t0)) : ℚ)) * 100 = 100 := by
          rw [htotv, hcnt_eq, div_self hne, one_mul]
        rw [show (((p, e, t0), df.countP (fun r => decide (key3 tc r = some ((p, e, t0))))) :
              (Val × Val × Val) × Nat).2 = df.countP (fun r => decide (key3 tc r = some ((p, e, t0)))) from rfl]
        rw [hval]

/-- Witness for C1 at the categorized fixture of the repository's test
`test_compute_percent_sums_to_100`, group (Mother, Test Level). -/
theorem compute_percent_group_invariants_witness :
    percentSum (compute_percent percent_fixture ("Target"))
      (Val.vStr ("Mother")) (Val.vStr ("Test Level")) = 100 ∧
    countSum (compute_percent percent_fixture ("Target"))
      (Val.vStr ("Mother")) (Val.vStr ("Test Level")) =
      ((percent_fixture.countP (fun r => decide (pe3 ("Target") r =
        some (Val.vStr ("Mother"), Val.vStr ("Test Level")))) : ℚ)) ∧
    (∀ t0, (∀ r ∈ percent_fixture, pe3 ("Target") r =
        some (Val.vStr ("Mother"), Val.vStr ("Test Level")) →
        key3 ("Target") r = some (Val.vStr ("Mother"), Val.vStr ("Test Level"), t0)) →
      (rowsOfGroup (compute_percent percent_fixture ("Target"))
        (Val.vStr ("Mother")) (Val.vStr ("Test Level"))).length = 1 ∧
      ∀ ρ ∈ rowsOfGroup (compute_percent percent_fixture ("Target"))
          (Val.vStr ("Mother")) (Val.vStr ("Test Level")),
        ρ.lookup ("Target") = some t0 ∧
        ρ.lookup ("Percent") = some (Val.vRat 100)) :=
  compute_percent_group_invariants percent_fixture ("Target")
    (Val.vStr ("Mother")) (Val.vStr ("Test Level"))
    (by decide) (by decide) (by decide) (by decide) (by decide)

/-- C3: `filter_by_parent_edu` returns exactly the rows whose
`Mother_edu_code` equals `m` and whose `Father_edu_code` equals the father
code (no omissions, no extras), and an omitted father code defaults to the
mother code. -/
theorem filter_by_parent_edu_correct (df : Frame) (m : Int) (fco : Option Int) :
    (∀ r, r ∈ filter_by_parent_edu df m fco ↔
      r ∈ df ∧ r.lookup ("Mother_edu_code") = some (Val.vInt m) ∧
        r.lookup ("Father_edu_code") = some (Val.vInt (fco.getD m))) ∧
    filter_by_parent_edu df m none = filter_by_parent_edu df m (some m) := by
  constructor
  · intro r
    simp [filter_by_parent_edu, List.mem_filter, and_assoc]
  · rfl

/-- C4: the label column declared by `map_and_order_edu` is an ordered
categorical whose category sequence equals the given `order` exactly, for
every input frame (in particular regardless of which subset of codes occurs
in the data; labels of `order` absent from the data are still declared
category levels). -/
theorem map_and_order_edu_declared_categories (df : Frame) (ec lc : String)
    (labels : List (Int × String)) (order : List String) :
    (map_and_order_edu df ec lc labels order).2.categories = order ∧
    (map_and_order_edu df ec lc labels order).2.ordered = true :=
  ⟨rfl, rfl⟩

/-- C8: in the state-passing embedding of the aggregator calls, the caller's
input frame after `compute_summary_stats` or `compute_percent` returns is
exactly the frame before the call, and the returned table is the newly
computed one (the Python bodies assign only to the fresh frames built by
`groupby`/`reset_index`/`melt`, never into `df`). -/
theorem aggregators_do_not_mutate_input (df : Frame) (vc tc : String) :
    (compute_summary_stats_state df vc).1 = df ∧
    (compute_percent_state df tc).1 = df ∧
    (compute_summary_stats_state df vc).2 = compute_summary_stats df vc ∧
    (compute_percent_state df tc).2 = compute_percent df tc :=
  ⟨rfl, rfl, rfl, rfl⟩

lemma map_and_order_edu_state_can_mutate :
    (map_and_order_edu_state [[("Edu_code", Val.vInt 2)]] ("Edu_code")
      ("Education Level") [(2, "X")] ["X"]).1 ≠ [[("Edu_code", Val.vInt 2)]] := by
  decide

/-- C10: both selector filters return a subsequence of the input frame:
every output row is an input row, no input row occurrence is duplicated, and
the relative order of rows is preserved. -/
theorem filters_return_subsequences (df : Frame) (m : Int) (fco : Option Int)
    (pcol : String) (pcode : Int) :
    List.Sublist (filter_by_parent_edu df m fco) df ∧
    List.Sublist (filter_one_parent df pcol pcode) df :=
  ⟨List.filter_sublist df, List.filter_sublist df⟩

lemma longRecord_lookup_parent (v pc tag : String) (r : Row) (hv1 : v ≠ "Parent") :
    (longRecord v pc tag r).lookup ("Parent") = some (Val.vStr tag) := by
  unfold longRecord
  rw [lookup_cons_ne _ _ _ _ (Ne.symm hv1), lookup_cons_ne _ _ _ _ (by decide),
    lookup_cons_self]

lemma longRecord_lookup_edu (v pc tag : String) (r : Row) (hv2 : v ≠ "Edu_code") :
    (longRecord v pc tag r).lookup ("Edu_code") =
      some ((r.lookup pc).getD Val.vNA) := by
  unfold longRecord
  rw [lookup_cons_ne _ _ _ _ (Ne.symm hv2), lookup_cons_self]

lemma make_long_eq (df : Frame) (v mc fc : String) (L : Frame)
    (hL : make_long df v mc fc = some L) :
    (∀ r ∈ df, (r.lookup v).isSome ∧ (r.lookup mc).isSome ∧ (r.lookup fc).isSome) ∧
    L = (df.map (longRecord v mc ("Mother"))) ++ (df.map (longRecord v fc ("Father"))) := by
  unfold make_long at hL
  by_cases h : (∀ r ∈ df, (r.lookup v).isSome ∧ (r.lookup mc).isSome ∧
      (r.lookup fc).isSome)
  · rw [if_pos h] at hL
    exact ⟨h, (Option.some_inj.mp hL).symm⟩
  · rw [if_neg h] at hL
    cases hL

lemma forall₂_map_of_mem {α β : Type} (R : α → β → Prop) (f : α → β)
    (l : List α) (h : ∀ a ∈ l, R a (f a)) : List.Forall₂ R l (l.map f) := by
  induction l with
  | nil => exact List.Forall₂.nil
  | cons x xs ih =>
    exact List.Forall₂.cons (h x (List.mem_cons_self x xs))
      (ih (fun a ha => h a (List.mem_cons_of_mem x ha)))

/-- C2: when the selected value column and the two parent columns are
present (so pandas raises no `KeyError`; the test fixture always satisfies
this), the long table has exactly `2n` rows: the first `n` are tagged
Parent = "Mother" and carry the mother column's value as `Edu_code`, the
last `n` are tagged Parent = "Father" and carry the father column's value,
one of each per wide row (the value-column name differing from the two
generated column names, as in every call the code makes). -/
theorem make_long_row_counts (df : Frame) (v mc fc : String) (L : Frame)
    (hv1 : v ≠ "Parent") (hv2 : v ≠ "Edu_code")
    (hL : make_long df v mc fc = some L) :
    L.length = 2 * df.length ∧
    L.countP (fun ρ => decide (ρ.lookup ("Parent") = some (Val.vStr ("Mother")))) = df.length ∧
    L.countP (fun ρ => decide (ρ.lookup ("Parent") = some (Val.vStr ("Father")))) = df.length ∧
    List.Forall₂ (fun r ρ => ρ.lookup ("Parent") = some (Val.vStr ("Mother")) ∧
      ρ.lookup ("Edu_code") = r.lookup mc) df (L.take df.length) ∧
    List.Forall₂ (fun r ρ => ρ.lookup ("Parent") = some (Val.vStr ("Father")) ∧
      ρ.lookup ("Edu_code") = r.lookup fc) df (L.drop df.length) := by
  obtain ⟨hall, hLeq⟩ := make_long_eq df v mc fc L hL
  subst hLeq
  have hlenM : (df.map (longRecord v mc ("Mother"))).length = df.length :=
    List.length_map df _
  have hlenF : (df.map (longRecord v fc ("Father"))).length = df.length :=
    List.length_map df _
  refine ⟨?_, ?_, ?_, ?_, ?_⟩
  · rw [List.length_append, hlenM, hlenF]
    ring
  · rw [List.countP_append]
    have hm : (df.map (longRecord v mc ("Mother"))).countP
        (fun ρ => decide (ρ.lookup ("Parent") = some (Val.vStr ("Mother")))) =
        (df.map (longRecord v mc ("Mother"))).length := by
      apply List.countP_eq_length.mpr
      intro ρ hρ
      rcases List.mem_map.mp hρ with ⟨r, _, hr⟩
      rw [← hr]
      simp [longRecord_lookup_parent v mc ("Mother") r hv1]
    have hf : (df.map (longRecord v fc ("Father"))).countP
        (fun ρ => decide (ρ.lookup ("Parent") = some (Val.vStr ("Mother")))) = 0 := by
      apply List.countP_eq_zero.mpr
      intro ρ hρ
      rcases List.mem_map.mp hρ with ⟨r, _, hr⟩
      rw [← hr]
      simp [longRecord_lookup_parent v fc ("Father") r hv1]
    rw [hm, hf, hlenM]
    ring
  · rw [List.countP_append]
    have hm : (df.map (longRecord v mc ("Mother"))).countP
        (fun ρ => decide (ρ.lookup ("Parent") = some (Val.vStr ("Father")))) = 0 := by
      apply List.countP_eq_zero.mpr
      intro ρ hρ
      rcases List.mem_map.mp hρ with ⟨r, _, hr⟩
      rw [← hr]
      simp [longRecord_lookup_parent v mc ("Mother") r hv1]
    have hf : (df.map (longRecord v fc ("Father"))).countP
        (fun ρ => decide (ρ.lookup ("Parent") = some (Val.vStr ("Father")))) =
        (df.map (longRecord v fc ("Father"))).length := by
      apply List.countP_eq_length.mpr
      intro ρ hρ
      rcases List.mem_map.mp hρ with ⟨r, _, hr⟩
      rw [← hr]
      simp [longRecord_lookup_parent v fc ("Father") r hv1]
    rw [hm, hf, hlenF]
    ring
  · rw [← hlenM, List.take_left]
    apply forall₂_map_of_mem
    intro r hr
    refine ⟨longRecord_lookup_parent v mc ("Mother") r hv1, ?_⟩
    rw [longRecord_lookup_edu v mc ("Mother") r hv2]
    rcases Option.isSome_iff_exists.mp (hall r hr).2.1 with ⟨x, hx⟩
    rw [hx]
    rfl
  · rw [← hlenM, List.drop_left]
    apply forall₂_map_of_mem
    intro r hr
    refine ⟨longRecord_lookup_parent v fc ("Father") r hv1, ?_⟩
    rw [longRecord_lookup_edu v fc ("Father") r hv2]
    rcases Option.isSome_iff_exists.mp (hall r hr).2.2 with ⟨x, hx⟩
    rw [hx]
    rfl

/-- Witness for C2 at the repository's wide test fixture with value column
`Age`. -/
theorem make_long_row_counts_witness :
    ((make_long dummy_df ("Age") ("Mother_edu_code") ("Father_edu_code")).getD []).length
      = 2 * dummy_df.length ∧
    ((make_long dummy_df ("Age") ("Mother_edu_code") ("Father_edu_code")).getD []).countP
      (fun ρ => decide (ρ.lookup ("Parent") = some (Val.vStr ("Mother")))) = dummy_df.length ∧
    ((make_long dummy_df ("Age") ("Mother_edu_code") ("Father_edu_code")).getD []).countP
      (fun ρ => decide (ρ.lookup ("Parent") = some (Val.vStr ("Father")))) = dummy_df.length ∧
    List.Forall₂ (fun r ρ => ρ.lookup ("Parent") = some (Val.vStr ("Mother")) ∧
      ρ.lookup ("Edu_code") = r.lookup ("Mother_edu_code")) dummy_df
      (((make_long dummy_df ("Age") ("Mother_edu_code") ("Father_edu_code")).getD []).take
        dummy_df.length) ∧
    List.Forall₂ (fun r ρ => ρ.lookup ("Parent") = some (Val.vStr ("Father")) ∧
      ρ.lookup ("Edu_code") = r.lookup ("Father_edu_code")) dummy_df
      (((make_long dummy_df ("Age") ("Mother_edu_code") ("Father_edu_code")).getD []).drop
        dummy_df.length) :=
  make_long_row_counts dummy_df ("Age") ("Mother_edu_code") ("Father_edu_code")
    ((make_long dummy_df ("Age") ("Mother_edu_code") ("Father_edu_code")).getD [])
    (by decide) (by decide) (by decide)

/-- Counterexample for C7 as stated: at the wide test fixture every input
row carries a `Target` column, the reshape succeeds, and yet no row of the
long output carries a `Target` column at all — `make_long` selects only the
value column and the parent column, so non-selected non-parent columns are
not inherited. -/
theorem make_long_drops_other_columns :
    (make_long dummy_df ("Age") ("Mother_edu_code") ("Father_edu_code")).isSome = true ∧
    dummy_df.all (fun r => (r.lookup ("Target")).isSome) = true ∧
    ((make_long dummy_df ("Age") ("Mother_edu_code") ("Father_edu_code")).getD []).all
      (fun ρ => decide (ρ.lookup ("Target") = none)) = true := by
  decide

/-- C7 (amended): each wide row contributes exactly one Mother-record and
one Father-record to the long table; each record consists of exactly the
selected value column (inherited unchanged), the corresponding parent's code
as `Edu_code`, and the `Parent` tag — all other columns of the wide row,
`Target` included unless it is the selected value column, are dropped. -/
theorem make_long_record_shape (df : Frame) (v mc fc : String) (L : Frame)
    (hL : make_long df v mc fc = some L) :
    List.Forall₂ (fun r ρ => ρ = [(v, ((r.lookup v).getD Val.vNA)),
        ("Edu_code", ((r.lookup mc).getD Val.vNA)),
        ("Parent", Val.vStr ("Mother"))]) df (L.take df.length) ∧
    List.Forall₂ (fun r ρ => ρ = [(v, ((r.lookup v).getD Val.vNA)),
        ("Edu_code", ((r.lookup fc).getD Val.vNA)),
        ("Parent", Val.vStr ("Father"))]) df (L.drop df.length) := by
  obtain ⟨hall, hLeq⟩ := make_long_eq df v mc fc L hL
  subst hLeq
  have hlenM : (df.map (longRecord v mc ("Mother"))).length = df.length :=
    List.length_map df _
  constructor
  · rw [← hlenM, List.take_left]
    apply forall₂_map_of_mem
    intro r _
    rfl
  · rw [← hlenM, List.drop_left]
    apply forall₂_map_of_mem
    intro r _
    rfl

/-- Witness for the amended C7 at the wide test fixture. -/
theorem make_long_record_shape_witness :
    List.Forall₂ (fun r ρ => ρ = [(("Age"), ((r.lookup ("Age")).getD Val.vNA)),
        ("Edu_code", ((r.lookup ("Mother_edu_code")).getD Val.vNA)),
        ("Parent", Val.vStr ("Mother"))]) dummy_df
      (((make_long dummy_df ("Age") ("Mother_edu_code") ("Father_edu_code")).getD []).take
        dummy_df.length) ∧
    List.Forall₂ (fun r ρ => ρ = [(("Age"), ((r.lookup ("Age")).getD Val.vNA)),
        ("Edu_code", ((r.lookup ("Father_edu_code")).getD Val.vNA)),
        ("Parent", Val.vStr ("Father"))]) dummy_df
      (((make_long dummy_df ("Age") ("Mother_edu_code") ("Father_edu_code")).getD []).drop
        dummy_df.length) :=
  make_long_record_shape dummy_df ("Age") ("Mother_edu_code") ("Father_edu_code")
    ((make_long dummy_df ("Age") ("Mother_edu_code") ("Father_edu_code")).getD [])
    (by decide)

lemma getInt_percentRow_count (tc : String)
    (counts : List ((Val × Val × Val) × Nat)) (kc : (Val × Val × Val) × Nat)
    (h3 : tc ≠ "Count") :
    getInt (percentRow tc counts kc) ("Count") = some ((kc.2 : Int)) := by
  unfold getInt
  rw [percentRow_lookup_count tc counts kc h3]

lemma key3_percentRow_of_counts (df : Frame) (tc : String)
    (h1 : tc ≠ "Parent") (h2 : tc ≠ "Education Level") :
    ∀ kc ∈ groupCounts tc df,
      key3 tc (percentRow tc (groupCounts tc df) kc) = some kc.1 := by
  intro kc hkc
  apply key3_percentRow _ _ _ h1 h2
  unfold groupCounts at hkc
  rcases List.mem_map.mp hkc with ⟨k, hk, hkk⟩
  rcases (mem_groupKeys3 tc df k).mp hk with ⟨r, hr, hk3⟩
  rw [← hkk]
  exact key3_ne_na tc r k hk3

lemma compute_percent_filterMap_key3 (df : Frame) (tc : String)
    (h1 : tc ≠ "Parent") (h2 : tc ≠ "Education Level") :
    (compute_percent df tc).filterMap (key3 tc) = groupKeys3 tc df := by
  unfold compute_percent
  rw [filterMap_map_some _ _ _ (fun kc => kc.1)
    (key3_percentRow_of_counts df tc h1 h2)]
  unfold groupCounts
  rw [List.map_map]
  exact List.map_id _

lemma counts_filter_eq_single (df : Frame) (tc : String) (k : Val × Val × Val)
    (hk : k ∈ groupKeys3 tc df) :
    (groupCounts tc df).filter (fun kc => decide (kc.1 = k)) =
      [(k, df.countP (fun r => decide (key3 tc r = some k)))] := by
  unfold groupCounts
  rw [filter_of_map]
  have hpr : ((groupKeys3 tc df).filter (fun k2 =>
      decide ((((k2, df.countP (fun r => decide (key3 tc r = some k2)))) :
        (Val × Val × Val) × Nat).1 = k)))
      = (groupKeys3 tc df).filter (fun x => decide (x = k)) := rfl
  rw [hpr, nodup_filter_eq_single (groupKeys3 tc df) k (groupKeys3_nodup tc df) hk]
  rfl

lemma regroup_count_value (df : Frame) (tc : String)
    (h1 : tc ≠ "Parent") (h2 : tc ≠ "Education Level") (h3 : tc ≠ "Count")
    (k : Val × Val × Val) (hk : k ∈ groupKeys3 tc df) :
    ((compute_percent df tc).filter (fun r => decide (key3 tc r = some k))).filterMap
      (fun r => getInt r ("Count"))
      = [((df.countP (fun r => decide (key3 tc r = some k)) : Int))] := by
  unfold compute_percent
  rw [filter_of_map]
  have hpred : (groupCounts tc df).filter (fun kc =>
      decide (key3 tc (percentRow tc (groupCounts tc df) kc) = some k)) =
      (groupCounts tc df).filter (fun kc => decide (kc.1 = k)) := by
    apply List.filter_congr
    intro kc hkc
    rw [key3_percentRow_of_counts df tc h1 h2 kc hkc]
    simp
  rw [hpred, counts_filter_eq_single df tc k hk]
  rw [List.map_cons, List.map_nil, List.filterMap_cons,
    getInt_percentRow_count tc (groupCounts tc df) _ h3]
  rfl

/-- C9: the PercentRow table that `compute_percent` produces is stable under
re-aggregation by its own keys: its (Parent, EducationLevel, Target) key
triples are pairwise distinct, and grouping the output again by those keys
with `Count` as the summed value reproduces exactly the key and Count
columns of the output (each combination occurs in exactly one row whose
Count is unchanged by regrouping). -/
theorem compute_percent_regroup_stable (df : Frame) (tc : String)
    (h1 : tc ≠ "Parent") (h2 : tc ≠ "Education Level") (h3 : tc ≠ "Count") :
    List.Nodup ((compute_percent df tc).filterMap (key3 tc)) ∧
    regroup_counts (compute_percent df tc) tc =
      (compute_percent df tc).map (fun ρ => ρ.take 4) := by
  constructor
  · rw [compute_percent_filterMap_key3 df tc h1 h2]
    exact groupKeys3_nodup tc df
  · unfold regroup_counts
    rw [compute_percent_filterMap_key3 df tc h1 h2,
      List.dedup_eq_self.mpr (groupKeys3_nodup tc df)]
    conv_rhs => rw [compute_percent, groupCounts, List.map_map, List.map_map]
    apply List.map_congr_left
    intro k hk
    rw [regroup_count_value df tc h1 h2 h3 k hk]
    simp [percentRow]

lemma getD_map_lt {α β : Type} (l : List α) (f : α → β) (i : Nat) (d : α)
    (d2 : β) (hi : i < l.length) : (l.map f).getD i d2 = f (l.getD i d) := by
  induction l generalizing i with
  | nil => exact absurd hi (Nat.not_lt_zero i)
  | cons x xs ih =>
    cases i with
    | zero => rfl
    | succ j => exact ih j (Nat.lt_of_succ_lt_succ hi)

lemma setColumn_getD (df : Frame) (c : String) (vals : List Val) (i : Nat)
    (hi : i < df.length) (hv : i < vals.length) :
    (setColumn df c vals).getD i [] =
      setField (df.getD i []) c (vals.getD i Val.vNA) := by
  induction df generalizing vals i with
  | nil => exact absurd hi (Nat.not_lt_zero i)
  | cons r rs ih =>
    cases vals with
    | nil => exact absurd hv (Nat.not_lt_zero i)
    | cons v vs =>
      cases i with
      | zero => rfl
      | succ j =>
        exact ih vs j (Nat.lt_of_succ_lt_succ hi) (Nat.lt_of_succ_lt_succ hv)

lemma lookup_pair_ne (c : String) (p : String × Val) (t : Row) (h : c ≠ p.1) :
    List.lookup c (p :: t) = List.lookup c t := by
  cases p with
  | mk a b => exact lookup_cons_ne c a b t h

lemma lookup_map_replace (r : Row) (c : String) (v : Val)
    (h : (r.lookup c).isSome) :
    (r.map (fun p => if p.1 = c then (c, v) else p)).lookup c = some v := by
  induction r with
  | nil => simp [List.lookup] at h
  | cons p t ih =>
    by_cases hp : p.1 = c
    · rw [List.map_cons, if_pos hp]
      exact lookup_cons_self c v _
    · rw [List.map_cons, if_neg hp]
      have hcp : c ≠ p.1 := fun hc => hp hc.symm
      rw [lookup_pair_ne c p _ hcp]
      apply ih
      rw [lookup_pair_ne c p t hcp] at h
      exact h

lemma lookup_append_single (r : Row) (c : String) (v : Val)
    (h : r.lookup c = none) : (r ++ [(c, v)]).lookup c = some v := by
  induction r with
  | nil => exact lookup_cons_self c v []
  | cons p t ih =>
    by_cases hp : c = p.1
    · exfalso
      cases p with
      | mk a b =>
        rw [hp] at h
        rw [lookup_cons_self] at h
        cases h
    · rw [List.cons_append, lookup_pair_ne c p _ hp]
      apply ih
      rw [lookup_pair_ne c p t hp] at h
      exact h

lemma lookup_setField_self (r : Row) (c : String) (v : Val) :
    (setField r c v).lookup c = some v := by
  unfold setField
  by_cases h : (r.lookup c).isSome
  · rw [if_pos h]
    exact lookup_map_replace r c v h
  · rw [if_neg h]
    apply lookup_append_single
    cases hl : r.lookup c with
    | none => rfl
    | some w =>
      rw [hl] at h
      simp at h

/-- Rows that carry the unassigned/missing label marker in the
`Education Level` column are the ones `groupby` drops; `keepLabeled` keeps
the others. -/
def keepLabeled (r : Row) : Bool :=
  !(decide (r.lookup ("Education Level") = some Val.vNA))

lemma na_level_keyCell (r : Row)
    (h : r.lookup ("Education Level") = some Val.vNA) :
    keyCell r ("Education Level") = none := by
  unfold keyCell
  rw [h]

lemma na_level_key3 (tc : String) (r : Row)
    (h : r.lookup ("Education Level") = some Val.vNA) : key3 tc r = none := by
  unfold key3
  rw [na_level_keyCell r h]
  cases keyCell r ("Parent") <;> cases keyCell r tc <;> rfl

lemma na_level_key2 (r : Row)
    (h : r.lookup ("Education Level") = some Val.vNA) : key2 r = none := by
  unfold key2
  rw [na_level_keyCell r h]
  cases keyCell r ("Parent") <;> rfl

lemma keepLabeled_false (r : Row) (h : keepLabeled r = false) :
    r.lookup ("Education Level") = some Val.vNA := by
  unfold keepLabeled at h
  cases hd : decide (r.lookup ("Education Level") = some Val.vNA) with
  | true => exact of_decide_eq_true hd
  | false => rw [hd] at h; cases h

lemma groupCounts_drop_na (tbl : Frame) (tc : String) :
    groupCounts tc tbl = groupCounts tc (tbl.filter keepLabeled) := by
  have hq3 : ∀ r, keepLabeled r = false → key3 tc r = none :=
    fun r hr => na_level_key3 tc r (keepLabeled_false r hr)
  unfold groupCounts groupKeys3
  rw [← filterMap_eq_of_drop tbl keepLabeled (key3 tc) hq3]
  apply List.map_congr_left
  intro k _
  have hcnt : tbl.countP (fun r => decide (key3 tc r = some k)) =
      (tbl.filter keepLabeled).countP (fun r => decide (key3 tc r = some k)) := by
    apply countP_eq_of_drop
    intro r hr
    apply decide_eq_false
    intro hsome
    rw [hq3 r hr] at hsome
    cases hsome
  rw [hcnt]

lemma compute_percent_drop_na (tbl : Frame) (tc : String) :
    compute_percent tbl tc = compute_percent (tbl.filter keepLabeled) tc := by
  unfold compute_percent
  rw [groupCounts_drop_na]

lemma summaryAgg_drop_na (tbl : Frame) (vc : String) :
    summaryAgg tbl vc = summaryAgg (tbl.filter keepLabeled) vc := by
  have hq2 : ∀ r, keepLabeled r = false → key2 r = none :=
    fun r hr => na_level_key2 r (keepLabeled_false r hr)
  unfold summaryAgg groupKeys2
  rw [← filterMap_eq_of_drop tbl keepLabeled key2 hq2]
  apply List.map_congr_left
  intro k _
  have hvals : groupVals tbl vc k = groupVals (tbl.filter keepLabeled) vc k := by
    unfold groupVals
    have hfil : tbl.filter (fun r => decide (key2 r = some k)) =
        (tbl.filter keepLabeled).filter (fun r => decide (key2 r = some k)) := by
      apply filter_eq_of_drop
      intro r hr
      apply decide_eq_false
      intro hsome
      rw [hq2 r hr] at hsome
      cases hsome
    rw [hfil]
  rw [hvals]

lemma compute_summary_stats_drop_na (tbl : Frame) (vc : String) :
    compute_summary_stats tbl vc =
      compute_summary_stats (tbl.filter keepLabeled) vc := by
  unfold compute_summary_stats
  rw [summaryAgg_drop_na]

/-- C5: an education code with no entry in the label map raises no error in
the (total) categorizer: the affected row receives the missing marker `vNA`
in the label column; and rows carrying the missing marker in `Education
Level` are dropped from every group of both aggregators — computing
`compute_percent` or `compute_summary_stats` on a table is identical to
computing it on the table with those rows removed, so they contribute to no
percentage or summary denominator. -/
theorem unmapped_codes_na_and_excluded (df : Frame) (edu_col label_col : String)
    (labels : List (Int × String)) (order : List String) (i : Nat) (c : Int)
    (hi : i < df.length)
    (hc : (df.getD i []).lookup edu_col = some (Val.vInt c))
    (hm : labels.lookup c = none) :
    ((map_and_order_edu df edu_col label_col labels order).1.getD i []).lookup
      label_col = some Val.vNA ∧
    (∀ tbl tc, compute_percent tbl tc =
      compute_percent (tbl.filter keepLabeled) tc) ∧
    (∀ tbl vc, compute_summary_stats tbl vc =
      compute_summary_stats (tbl.filter keepLabeled) vc) := by
  refine ⟨?_, fun tbl tc => compute_percent_drop_na tbl tc,
    fun tbl vc => compute_summary_stats_drop_na tbl vc⟩
  have hlen1 : (mapLabels df edu_col labels).length = df.length :=
    List.length_map df _
  have hlen2 : (mkCategorical (mapLabels df edu_col labels) order).values.length
      = df.length := by
    unfold mkCategorical
    rw [List.length_map]
    exact hlen1
  have hmlv : (mapLabels df edu_col labels).getD i Val.vNA = Val.vNA := by
    unfold mapLabels
    rw [getD_map_lt df _ i [] Val.vNA hi, hc]
    simp [hm]
  have hcatv : (mkCategorical (mapLabels df edu_col labels) order).values.getD i
      Val.vNA = Val.vNA := by
    unfold mkCategorical
    rw [getD_map_lt (mapLabels df edu_col labels) _ i Val.vNA Val.vNA
      (hlen1 ▸ hi), hmlv]
  unfold map_and_order_edu
  rw [setColumn_getD df label_col _ i hi (hlen2 ▸ hi), hcatv]
  exact lookup_setField_self _ label_col Val.vNA

/-- Witness for C5: a one-row frame whose code 9 has no entry in the label
map receives the missing marker, and the aggregator exclusions hold. -/
theorem unmapped_codes_na_and_excluded_witness :
    ((map_and_order_edu [[("Edu_code", Val.vInt 9)]] ("Edu_code")
      ("Education Level") [(2, "Elementary")] ["Elementary"]).1.getD 0 []).lookup
      ("Education Level") = some Val.vNA ∧
    (∀ tbl tc, compute_percent tbl tc =
      compute_percent (tbl.filter keepLabeled) tc) ∧
    (∀ tbl vc, compute_summary_stats tbl vc =
      compute_summary_stats (tbl.filter keepLabeled) vc) :=
  unmapped_codes_na_and_excluded [[("Edu_code", Val.vInt 9)]] ("Edu_code")
    ("Education Level") [(2, "Elementary")] ["Elementary"] 0 9
    (by decide) (by decide) (by decide)

lemma insertQ_length (x : ℚ) (l : List ℚ) :
    (insertQ x l).length = l.length + 1 := by
  induction l with
  | nil => rfl
  | cons y ys ih =>
    unfold insertQ
    by_cases h : x ≤ y
    · rw [if_pos h]
      rfl
    · rw [if_neg h]
      simp [ih]

lemma sortQ_length (l : List ℚ) : (sortQ l).length = l.length := by
  induction l with
  | nil => rfl
  | cons x xs ih =>
    show (insertQ x (sortQ xs)).length = (x :: xs).length
    rw [insertQ_length, ih]
    rfl

lemma nodup_map_filter_eq_single {α β : Type} [DecidableEq α] (l : List α)
    (f : α → β) (q : β → Bool) (a : α) (hnd : l.Nodup) (ha : a ∈ l)
    (hqa : q (f a) = true) (huniq : ∀ x ∈ l, q (f x) = true → x = a) :
    (l.map f).filter q = [f a] := by
  rw [filter_of_map]
  have hfl : l.filter (fun x => q (f x)) = [a] := by
    apply nodup_all_eq_single _ _ (hnd.filter _)
    · intro x hx
      exact huniq x (List.mem_filter.mp hx).1 (List.mem_filter.mp hx).2
    · exact List.mem_filter.mpr ⟨ha, hqa⟩
  rw [hfl]
  rfl

lemma summary_rowsOfGroup (df : Frame) (vc : String) (p e : Val)
    (hmem : (p, e) ∈ groupKeys2 df) :
    rowsOfGroup (compute_summary_stats df vc) p e =
      [statRow vc ("Mean") (p, e) (meanV (groupVals df vc (p, e))),
       statRow vc ("Median") (p, e) (medianV (groupVals df vc (p, e)))] := by
  unfold rowsOfGroup compute_summary_stats summaryAgg
  rw [List.filter_append, List.map_map, List.map_map]
  rw [nodup_map_filter_eq_single (groupKeys2 df)
      ((fun a => statRow vc ("Mean") a.1 a.2.1) ∘
        (fun k => (k, meanV (groupVals df vc k), medianV (groupVals df vc k))))
      (fun ρ => decide (ρ.lookup ("Parent") = some p) &&
        decide (ρ.lookup ("Education Level") = some e))
      ((p, e)) (groupKeys2_nodup df) hmem
      (by simp [Function.comp, statRow_lookup_parent, statRow_lookup_level])
      (by
        intro x hx hq
        simp [Function.comp, statRow_lookup_parent, statRow_lookup_level] at hq
        exact Prod.ext hq.1 hq.2)]
  rw [nodup_map_filter_eq_single (groupKeys2 df)
      ((fun a => statRow vc ("Median") a.1 a.2.2) ∘
        (fun k => (k, meanV (groupVals df vc k), medianV (groupVals df vc k))))
      (fun ρ => decide (ρ.lookup ("Parent") = some p) &&
        decide (ρ.lookup ("Education Level") = some e))
      ((p, e)) (groupKeys2_nodup df) hmem
      (by simp [Function.comp, statRow_lookup_parent, statRow_lookup_level])
      (by
        intro x hx hq
        simp [Function.comp, statRow_lookup_parent, statRow_lookup_level] at hq
        exact Prod.ext hq.1 hq.2)]
  rfl

/-- C6: for every observed (Parent, EducationLevel) group of a categorized
long table whose group carries at least one numeric value (and a value
column name distinct from the three generated column names, as in every call
the code makes), `compute_summary_stats` emits exactly two rows for the
group — one tagged Statistic = "Mean" holding the arithmetic mean
(sum / count) of the value column over the group, one tagged
Statistic = "Median" holding the sorted-middle median with the
average-of-two-middle-values rule for even-sized groups — both sharing the
single value column. -/
theorem compute_summary_stats_group_rows (df : Frame) (vc : String) (p e : Val)
    (hv1 : vc ≠ "Parent") (hv2 : vc ≠ "Education Level") (hv3 : vc ≠ "Statistic")
    (hobs : 0 < df.countP (fun r => decide (key2 r = some (p, e))))
    (hg : groupVals df vc (p, e) ≠ []) :
    (rowsOfGroup (compute_summary_stats df vc) p e).length = 2 ∧
    (rowsOfGroup (compute_summary_stats df vc) p e).countP
      (fun ρ => decide (ρ.lookup ("Statistic") = some (Val.vStr ("Mean")))) = 1 ∧
    (rowsOfGroup (compute_summary_stats df vc) p e).countP
      (fun ρ => decide (ρ.lookup ("Statistic") = some (Val.vStr ("Median")))) = 1 ∧
    (∀ ρ ∈ rowsOfGroup (compute_summary_stats df vc) p e,
      (ρ.lookup ("Statistic") = some (Val.vStr ("Mean")) →
        ρ.lookup vc = some (Val.vRat ((groupVals df vc (p, e)).sum /
          ((groupVals df vc (p, e)).length : ℚ)))) ∧
      (ρ.lookup ("Statistic") = some (Val.vStr ("Median")) →
        ρ.lookup vc = some (Val.vRat (
          if (sortQ (groupVals df vc (p, e))).length % 2 = 1 then
            (sortQ (groupVals df vc (p, e))).getD
              ((sortQ (groupVals df vc (p, e))).length / 2) 0
          else ((sortQ (groupVals df vc (p, e))).getD
              ((sortQ (groupVals df vc (p, e))).length / 2 - 1) 0 +
            (sortQ (groupVals df vc (p, e))).getD
              ((sortQ (groupVals df vc (p, e))).length / 2) 0) / 2)))) := by
  have hmem : (p, e) ∈ groupKeys2 df := by
    rcases List.countP_pos_iff.mp hobs with ⟨r, hr, hpr⟩
    exact (mem_groupKeys2 df (p, e)).mpr ⟨r, hr, of_decide_eq_true hpr⟩
  have hrows := summary_rowsOfGroup df vc p e hmem
  have hglen : (groupVals df vc (p, e)).length ≠ 0 := by
    intro h0
    exact hg (List.length_eq_zero.mp h0)
  have hslen : (sortQ (groupVals df vc (p, e))).length ≠ 0 := by
    rw [sortQ_length]
    exact hglen
  have hmeanv : meanV (groupVals df vc (p, e)) =
      Val.vRat ((groupVals df vc (p, e)).sum /
        ((groupVals df vc (p, e)).length : ℚ)) := by
    unfold meanV
    rw [if_neg hglen]
  have hmedv : medianV (groupVals df vc (p, e)) =
      Val.vRat (
        if (sortQ (groupVals df vc (p, e))).length % 2 = 1 then
          (sortQ (groupVals df vc (p, e))).getD
            ((sortQ (groupVals df vc (p, e))).length / 2) 0
        else ((sortQ (groupVals df vc (p, e))).getD
            ((sortQ (groupVals df vc (p, e))).length / 2 - 1) 0 +
          (sortQ (groupVals df vc (p, e))).getD
            ((sortQ (groupVals df vc (p, e))).length / 2) 0) / 2) := by
    unfold medianV
    rw [if_neg hslen]
    by_cases hpar : (sortQ (groupVals df vc (p, e))).length % 2 = 1
    · rw [if_pos hpar, if_pos hpar]
    · rw [if_neg hpar, if_neg hpar]
  refine ⟨?_, ?_, ?_, ?_⟩
  · rw [hrows]
    rfl
  · rw [hrows]
    simp [List.countP_cons, statRow_lookup_statistic]
  · rw [hrows]
    simp [List.countP_cons, statRow_lookup_statistic]
  · intro ρ hρ
    rw [hrows] at hρ
    rcases List.mem_cons.mp hρ with hρm | hρr
    · subst hρm
      constructor
      · intro _
        rw [statRow_lookup_value _ _ _ _ hv1 hv2 hv3, hmeanv]
      · intro habs
        rw [statRow_lookup_statistic] at habs
        exact absurd (Option.some_inj.mp habs) (by decide)
    · have hρm := List.mem_singleton.mp hρr
      subst hρm
      constructor
      · intro habs
        rw [statRow_lookup_statistic] at habs
        exact absurd (Option.some_inj.mp habs) (by decide)
      · intro _
        rw [statRow_lookup_value _ _ _ _ hv1 hv2 hv3, hmedv]

/-- Witness for C6 at the categorized fixture, group (Mother, Test Level),
value column Age. -/
theorem compute_summary_stats_group_rows_witness :
    (rowsOfGroup (compute_summary_stats percent_fixture ("Age"))
      (Val.vStr ("Mother")) (Val.vStr ("Test Level"))).length = 2 ∧
    (rowsOfGroup (compute_summary_stats percent_fixture ("Age"))
      (Val.vStr ("Mother")) (Val.vStr ("Test Level"))).countP
      (fun ρ => decide (ρ.lookup ("Statistic") = some (Val.vStr ("Mean")))) = 1 ∧
    (rowsOfGroup (compute_summary_stats percent_fixture ("Age"))
      (Val.vStr ("Mother")) (Val.vStr ("Test Level"))).countP
      (fun ρ => decide (ρ.lookup ("Statistic") = some (Val.vStr ("Median")))) = 1 ∧
    (∀ ρ ∈ rowsOfGroup (compute_summary_stats percent_fixture ("Age"))
        (Val.vStr ("Mother")) (Val.vStr ("Test Level")),
      (ρ.lookup ("Statistic") = some (Val.vStr ("Mean")) →
        ρ.lookup ("Age") = some (Val.vRat
          ((groupVals percent_fixture ("Age")
              (Val.vStr ("Mother"), Val.vStr ("Test Level"))).sum /
            ((groupVals percent_fixture ("Age")
              (Val.vStr ("Mother"), Val.vStr ("Test Level"))).length : ℚ)))) ∧
      (ρ.lookup ("Statistic") = some (Val.vStr ("Median")) →
        ρ.lookup ("Age") = some (Val.vRat (
          if (sortQ (groupVals percent_fixture ("Age")
              (Val.vStr ("Mother"), Val.vStr ("Test Level")))).length % 2 = 1 then
            (sortQ (groupVals percent_fixture ("Age")
              (Val.vStr ("Mother"), Val.vStr ("Test Level")))).getD
              ((sortQ (groupVals percent_fixture ("Age")
                (Val.vStr ("Mother"), Val.vStr ("Test Level")))).length / 2) 0
          else ((sortQ (groupVals percent_fixture ("Age")
              (Val.vStr ("Mother"), Val.vStr ("Test Level")))).getD
              ((sortQ (groupVals percent_fixture ("Age")
                (Val.vStr ("Mother"), Val.vStr ("Test Level")))).length / 2 - 1) 0 +
            (sortQ (groupVals percent_fixture ("Age")
              (Val.vStr ("Mother"), Val.vStr ("Test Level")))).getD
              ((sortQ (groupVals percent_fixture ("Age")
                (Val.vStr ("Mother"), Val.vStr ("Test Level")))).length / 2) 0) / 2)))) :=
  compute_summary_stats_group_rows percent_fixture ("Age")
    (Val.vStr ("Mother")) (Val.vStr ("Test Level"))
    (by decide) (by decide) (by decide) (by decide) (by decide)

/-- Witness for C9 at the categorized fixture with target column Target. -/
theorem compute_percent_regroup_stable_witness :
    List.Nodup ((compute_percent percent_fixture ("Target")).filterMap
      (key3 ("Target"))) ∧
    regroup_counts (compute_percent percent_fixture ("Target")) ("Target") =
      (compute_percent percent_fixture ("Target")).map (fun ρ => ρ.take 4) :=
  compute_percent_regroup_stable percent_fixture ("Target")
    (by decide) (by decide) (by decide)
